import Mathlib

/-!
Verification of the siyuan-ollama-proxy core (src/proxy/app.py).

The proxy sits between OpenAI-style clients and an Ollama backend.  We give a
shallow embedding of its pure core: model-name normalisation, model selection,
JSON body rewriting, header/query stripping, the TTL model cache with its
refresh/invalidate logic, the provisioner, and the models-listing fallback.

Conventions of the embedding:
  * Python `str` is Lean `String`; `bytes` is `List Nat`.
  * Python dicts used as string maps (headers, query params) are functions
    `String → Option String`; `dict.pop(k, None)` is `dictPop`.
  * JSON values are the inductive `Json` below; a JSON object is an
    insertion-ordered association list, mirroring Python dict semantics.
  * Timestamps (`time.time()`) and the TTL are integers; only their ordering
    and subtraction matter to the control flow being verified.
  * Network calls are an oracle (`Backend`): the result of `GET /api/tags`
    (after `raise_for_status`) and of `POST /api/pull` per model.  `.error`
    covers both transport failure and a non-success HTTP status.
  * Each stateful operation returns the list of backend requests it issued,
    the new cache state, and its `Except` outcome, so that "no request was
    issued" and "the error propagates, state unchanged" are statable.
-/

namespace OllamaProxy

/-- JSON values.  Objects are insertion-ordered association lists, as Python
dicts are. -/
inductive Json where
  | null : Json
  | bool : Bool → Json
  | num : Int → Json
  | str : String → Json
  | arr : List Json → Json
  | obj : List (String × Json) → Json

/-- Python `str.strip()` on a character list: drop whitespace from both ends. -/
def pyStrip (l : List Char) : List Char :=
  ((l.dropWhile Char.isWhitespace).reverse.dropWhile Char.isWhitespace).reverse

/-- Python `m.split("/", 1)[0]` on a character list: everything before the
first `'/'` (the whole list when there is no `'/'`). -/
def splitHead : List Char → List Char
  | [] => []
  | c :: cs => if c = '/' then [] else c :: splitHead cs

/-- Python substring test `needle in hay`. -/
def strContains (hay needle : String) : Bool :=
  (List.range (hay.data.length + 1)).any fun i => needle.data.isPrefixOf (hay.data.drop i)

/-- Python `str.lower()` (character-wise, as used on ASCII content types). -/
def pyLower (s : String) : String := ⟨s.data.map Char.toLower⟩

/-- Embeds `_normalize_model` (src/proxy/app.py:23-35): trim, and if the
result contains `'/'`, keep the part before the first `'/'` and trim again. -/
def normalize_model (raw : String) : String :=
  let m := pyStrip raw.data
  if m.isEmpty then ""
  else if m.contains '/' then ⟨pyStrip (splitHead m)⟩
  else ⟨m⟩

/-- Embeds `_pick_model` (src/proxy/app.py:38-46).  `m_q` is
`request.query_params.get("model")`.  Python's `if m_q` is falsy for both
`None` and the empty string, and `m or DEFAULT_MODEL` yields the default
exactly when `m` is empty. -/
def pick_model (m_q : Option String) (default_model : String) : String :=
  let m := match m_q with
    | some q => if q = "" then "" else normalize_model q
    | none => ""
  if m = "" then default_model else m

/-- Python `payload["model"] = v` on an object's association list: replace the
(unique) existing binding in place, else append. -/
def objSet (kvs : List (String × Json)) (k : String) (v : Json) : List (String × Json) :=
  match kvs with
  | [] => [(k, v)]
  | (k', v') :: rest => if k' = k then (k, v) :: rest else (k', v') :: objSet rest k v

/-- Python `payload.setdefault("model", v)`: insert only when the key is
absent. -/
def objSetdefault (kvs : List (String × Json)) (k : String) (v : Json) : List (String × Json) :=
  if (List.lookup k kvs).isSome then kvs else kvs ++ [(k, v)]

/-- Embeds `_apply_model` (src/proxy/app.py:49-60). -/
def apply_model (payload : Json) (model : String) (force : Bool) : Json :=
  match payload with
  | .obj kvs =>
      if force then .obj (objSet kvs "model" (.str model))
      else .obj (objSetdefault kvs "model" (.str model))
  | p => p

/-- `dict.pop(k, None)` on a string map. -/
def dictPop (d : String → Option String) (k : String) : String → Option String :=
  fun k2 => if k2 = k then none else d k2

/-- The outbound body of a proxied request: in `proxy_v1` exactly one of
`content=body_bytes` (when `json_payload is None`) and `json=json_payload`
is passed to the outbound request. -/
inductive OutBody where
  | raw : List Nat → OutBody
  | json : Json → OutBody

/-- An inbound request as `proxy_v1` consumes it: query params, headers
(lower-cased keys, as Starlette exposes them), and raw body bytes. -/
structure InboundRequest where
  query : String → Option String
  headers : String → Option String
  body : List Nat

/-- The outbound request pieces built by `proxy_v1`. -/
structure OutboundRequest where
  headers : String → Option String
  params : String → Option String
  body : OutBody

/-- Embeds the rewriting part of `proxy_v1` (src/proxy/app.py:139-172):
header stripping, query stripping, and the JSON body rewrite with raw-bytes
fallback.  `parseJson` is the JSON-parsing primitive (`request.json()`):
`none` models a parse exception. -/
def proxy_v1_rewrite (default_model : String) (parseJson : List Nat → Option Json)
    (req : InboundRequest) : OutboundRequest :=
  let model := pick_model (req.query "model") default_model
  let headers := dictPop (dictPop (dictPop req.headers "content-length") "transfer-encoding") "host"
  let params := dictPop req.query "model"
  let content_type := (req.headers "content-type").getD ""
  let body :=
    if strContains (pyLower content_type) "application/json" && !req.body.isEmpty then
      match parseJson req.body with
      | some payload =>
          let force := (req.query "model").isSome
          OutBody.json (apply_model payload model force)
      | none => OutBody.raw req.body
    else OutBody.raw req.body
  ⟨headers, params, body⟩

/-- The module-level model cache: `_models_cache` (a set of names, kept here
as a list queried by membership) and `_models_cache_ts`. -/
structure CacheState where
  models_cache : List String
  models_cache_ts : Int
deriving DecidableEq

/-- A backend request observable from the outside: `GET /api/tags` or
`POST /api/pull` for a model. -/
inductive BackendReq where
  | fetchTags : BackendReq
  | pull : String → BackendReq
deriving DecidableEq

/-- The backend oracle: the outcome of `GET /api/tags` (the parsed JSON body
on success; `.error` for transport failure or non-2xx after
`raise_for_status`) and the outcome of `POST /api/pull` for each model. -/
structure Backend where
  tags : Except Unit Json
  pullRes : String → Except Unit Unit

/-- Embeds `_fetch_local_models` (src/proxy/app.py:63-73).  The HTTP call and
`raise_for_status` are the `Backend.tags` oracle.  A non-mapping response body
makes `data.get` raise in the source, hence `.error`; a missing `"models"`
key yields the empty list.  `if name:` keeps truthy names; a non-string name
can never equal a queried model string, so it contributes nothing to later
membership tests and is dropped here. -/
def fetch_local_models (b : Backend) : Except Unit (List String) :=
  match b.tags with
  | .error e => .error e
  | .ok (.obj kvs) =>
      match List.lookup "models" kvs with
      | none => .ok []
      | some (.arr ms) =>
          .ok (ms.filterMap fun m =>
            match m with
            | .obj mkvs =>
                match List.lookup "name" mkvs with
                | some (.str n) => if n = "" then none else some n
                | _ => none
            | _ => none)
      | some _ => .error ()
  | .ok _ => .error ()

/-- Embeds `_has_model` (src/proxy/app.py:76-82).  Returns the backend
requests issued, the cache state after the call, and the outcome.  The global
assignments run only after the fetch succeeds, so on fetch failure the state
is the input state. -/
def has_model (b : Backend) (st : CacheState) (model : String) (now ttl : Int) :
    List BackendReq × CacheState × Except Unit Bool :=
  if now - st.models_cache_ts > ttl then
    match fetch_local_models b with
    | .error e => ([.fetchTags], st, .error e)
    | .ok names => ([.fetchTags], ⟨names, now⟩, .ok (names.contains model))
  else
    ([], st, .ok (st.models_cache.contains model))

/-- Embeds `_pull_model` (src/proxy/app.py:85-96).  On success the cache is
invalidated by resetting `_models_cache_ts` to the sentinel `0.0`; on failure
(`raise_for_status` throws) the state is untouched. -/
def pull_model (b : Backend) (st : CacheState) (model : String) :
    List BackendReq × CacheState × Except Unit Unit :=
  match b.pullRes model with
  | .error e => ([.pull model], st, .error e)
  | .ok _ => ([.pull model], { st with models_cache_ts := 0 }, .ok ())

/-- Embeds `_ensure_model` (src/proxy/app.py:99-104), with the `AUTO_PULL`
configuration flag explicit. -/
def ensure_model (auto_pull : Bool) (b : Backend) (st : CacheState) (model : String)
    (now ttl : Int) : List BackendReq × CacheState × Except Unit Unit :=
  if auto_pull then
    match has_model b st model now ttl with
    | (reqs1, st1, .error e) => (reqs1, st1, .error e)
    | (reqs1, st1, .ok true) => (reqs1, st1, .ok ())
    | (reqs1, st1, .ok false) =>
        let (reqs2, st2, res2) := pull_model b st1 model
        (reqs1 ++ reqs2, st2, res2)
  else ([], st, .ok ())

/-- Number of `POST /api/pull` requests in a request log. -/
def countPulls (reqs : List BackendReq) : Nat :=
  (reqs.filter fun r => match r with | .pull _ => true | .fetchTags => false).length

/-- Embeds the `models` route handler (src/proxy/app.py:118-130): `status` and
`body` are the backend's `GET /v1/models` status code and parsed JSON body;
on a 200 the body is returned as is, otherwise the fallback list naming only
the default model. -/
def models_handler (default_model : String) (status : Nat) (body : Json) : Json :=
  if status = 200 then body
  else .obj [("object", .str "list"),
             ("data", .arr [.obj [("id", .str default_model),
                                  ("object", .str "model"),
                                  ("owned_by", .str "ollama")]])]

/-! ### Helper lemmas -/

theorem splitHead_eq_takeWhile (l : List Char) :
    splitHead l = l.takeWhile (fun c => c != '/') := by
  induction l with
  | nil => rfl
  | cons c cs ih =>
    by_cases h : c = '/'
    · subst h; simp [splitHead, List.takeWhile_cons]
    · simp [splitHead, List.takeWhile_cons, h, ih]

theorem pyStrip_eq_nil (l : List Char) (h : ∀ c ∈ l, c.isWhitespace) : pyStrip l = [] := by
  unfold pyStrip
  rw [List.dropWhile_eq_nil_iff.mpr h]
  simp

theorem countPulls_append (a b : List BackendReq) :
    countPulls (a ++ b) = countPulls a + countPulls b := by
  simp [countPulls, List.filter_append]

theorem countPulls_has_model (b : Backend) (st : CacheState) (model : String) (now ttl : Int) :
    countPulls (has_model b st model now ttl).1 = 0 := by
  unfold has_model
  by_cases h : now - st.models_cache_ts > ttl
  · rw [if_pos h]
    cases fetch_local_models b <;> rfl
  · rw [if_neg h]; rfl

theorem pull_model_fst (b : Backend) (st : CacheState) (model : String) :
    (pull_model b st model).1 = [.pull model] := by
  unfold pull_model
  cases b.pullRes model <;> rfl

/-! ### Claims -/

/-- C10: the normalizer: if the trimmed input contains `/`, the output is the
part of the trimmed input before the first `/`, trimmed again; empty or
whitespace-only input gives the empty string; and the malformed-path example
`"deepseek-r1:latest/chat/completions"` normalizes to `"deepseek-r1:latest"`. -/
theorem normalize_model_spec (s : String) :
    ((pyStrip s.data).contains '/' = true →
       normalize_model s = ⟨pyStrip ((pyStrip s.data).takeWhile (fun c => c != '/'))⟩) ∧
    ((∀ c ∈ s.data, c.isWhitespace) → normalize_model s = "") ∧
    normalize_model "deepseek-r1:latest/chat/completions" = "deepseek-r1:latest" := by
  refine ⟨?_, ?_, by decide⟩
  · intro h
    have hne : (pyStrip s.data).isEmpty = false := by
      cases hl : pyStrip s.data with
      | nil => rw [hl] at h; simp at h
      | cons a as => simp
    have hmem : '/' ∈ pyStrip s.data := by simpa using h
    unfold normalize_model
    simp [hne, hmem, splitHead_eq_takeWhile]
  · intro h
    unfold normalize_model
    simp [pyStrip_eq_nil s.data h]

/-- Witness for C10 at concrete inputs. -/
theorem normalize_model_spec_witness :
    normalize_model "a/b/c" = ⟨pyStrip ((pyStrip "a/b/c".data).takeWhile (fun c => c != '/'))⟩ ∧
    normalize_model " \t " = "" :=
  ⟨(normalize_model_spec "a/b/c").1 (by decide),
   (normalize_model_spec " \t ").2.1 (by decide)⟩

/-- C9: the selector: a `model` query parameter with non-empty normalized
value wins over the default; no parameter, or one normalizing to empty,
selects the configured default. -/
theorem pick_model_spec (q dm : String) :
    (normalize_model q ≠ "" → pick_model (some q) dm = normalize_model q) ∧
    pick_model none dm = dm ∧
    (normalize_model q = "" → pick_model (some q) dm = dm) := by
  refine ⟨?_, by simp [pick_model], ?_⟩
  · intro h
    by_cases hq : q = ""
    · subst hq; exact absurd (by decide) h
    · unfold pick_model
      simp [hq, h]
  · intro h
    by_cases hq : q = ""
    · unfold pick_model; simp [hq]
    · unfold pick_model; simp [hq, h]

/-- Witness for C9 at concrete inputs. -/
theorem pick_model_spec_witness :
    pick_model (some "b") "dflt" = normalize_model "b" ∧
    pick_model (some "  ") "dflt" = "dflt" :=
  ⟨(pick_model_spec "b" "dflt").1 (by decide),
   (pick_model_spec "  " "dflt").2.2 (by decide)⟩

theorem proxy_body_eq (dm : String) (parseJson : List Nat → Option Json)
    (req : InboundRequest) :
    (proxy_v1_rewrite dm parseJson req).body =
      if strContains (pyLower ((req.headers "content-type").getD "")) "application/json"
          && !req.body.isEmpty then
        match parseJson req.body with
        | some payload =>
            OutBody.json (apply_model payload (pick_model (req.query "model") dm)
              (req.query "model").isSome)
        | none => OutBody.raw req.body
      else OutBody.raw req.body := rfl

/-- C1: for a JSON body `{"model":"a"}`: a query override `model=q` (with
non-empty normalized value) overwrites the body's model field
unconditionally; without a query override the body's model field stays
`"a"`; and a body object lacking a model field gets the default model filled
in (setdefault semantics). -/
theorem proxy_v1_rewrite_model_override (dm q : String) (parseJson : List Nat → Option Json)
    (req : InboundRequest) (ct : String)
    (hct : req.headers "content-type" = some ct)
    (hjson : strContains (pyLower ct) "application/json" = true)
    (hbody : req.body ≠ []) :
    (req.query "model" = some q → normalize_model q ≠ "" →
       parseJson req.body = some (.obj [("model", .str "a")]) →
       (proxy_v1_rewrite dm parseJson req).body
         = .json (.obj [("model", .str (normalize_model q))])) ∧
    (req.query "model" = none →
       parseJson req.body = some (.obj [("model", .str "a")]) →
       (proxy_v1_rewrite dm parseJson req).body = .json (.obj [("model", .str "a")])) ∧
    (∀ kvs, req.query "model" = none →
       parseJson req.body = some (.obj kvs) →
       List.lookup "model" kvs = none →
       (proxy_v1_rewrite dm parseJson req).body
         = .json (.obj (kvs ++ [("model", .str dm)]))) := by
  have hbody' : req.body.isEmpty = false := by
    cases hb : req.body with
    | nil => exact absurd hb hbody
    | cons a as => rfl
  refine ⟨?_, ?_, ?_⟩
  · intro hq hnz hp
    have hq' : q ≠ "" := by
      intro he; subst he; exact hnz (by decide)
    rw [proxy_body_eq, hct, hq, hp]
    simp only [Option.getD_some, hjson, hbody', Bool.not_false, Bool.and_self, if_true]
    simp [apply_model, objSet, pick_model, hq', hnz]
  · intro hq hp
    rw [proxy_body_eq, hct, hq, hp]
    simp only [Option.getD_some, hjson, hbody', Bool.not_false, Bool.and_self, if_true]
    rfl
  · intro kvs hq hp hlk
    rw [proxy_body_eq, hct, hq, hp]
    simp only [Option.getD_some, hjson, hbody', Bool.not_false, Bool.and_self, if_true]
    simp [apply_model, objSetdefault, hlk, pick_model]

/-- Witness for C1: concrete request with body `{"model":"a"}` and query
`model=b`. -/
theorem proxy_v1_rewrite_model_override_witness :
    (proxy_v1_rewrite "dft" (fun _ => some (.obj [("model", .str "a")]))
       ⟨fun k => if k = "model" then some "b" else none,
        fun k => if k = "content-type" then some "application/json" else none,
        [123]⟩).body
      = .json (.obj [("model", .str (normalize_model "b"))]) :=
  (proxy_v1_rewrite_model_override "dft" "b" (fun _ => some (.obj [("model", .str "a")]))
      ⟨fun k => if k = "model" then some "b" else none,
       fun k => if k = "content-type" then some "application/json" else none,
       [123]⟩ "application/json" rfl (by decide) (by decide)).1 rfl (by decide) rfl

/-- C2: exactly one of the two body forms goes upstream — the untouched raw
bytes or a parsed-and-rewritten JSON value — and whenever JSON parsing fails
(in particular for a non-empty `application/json` body) the original raw
bytes are forwarded unmodified. -/
theorem proxy_v1_rewrite_body_exclusive (dm : String) (parseJson : List Nat → Option Json)
    (req : InboundRequest) :
    ((proxy_v1_rewrite dm parseJson req).body = .raw req.body ∨
       ∃ j, (proxy_v1_rewrite dm parseJson req).body = .json j) ∧
    ¬ ((proxy_v1_rewrite dm parseJson req).body = .raw req.body ∧
       ∃ j, (proxy_v1_rewrite dm parseJson req).body = .json j) ∧
    (parseJson req.body = none →
       (proxy_v1_rewrite dm parseJson req).body = .raw req.body) := by
  rw [proxy_body_eq]
  split
  · cases hp : parseJson req.body with
    | some payload =>
        refine ⟨Or.inr ⟨_, rfl⟩, ?_, ?_⟩
        · rintro ⟨h1, -⟩
          exact OutBody.noConfusion h1
        · intro hn
          exact Option.noConfusion hn
    | none =>
        refine ⟨Or.inl rfl, ?_, fun _ => rfl⟩
        rintro ⟨-, j, hj⟩
        exact OutBody.noConfusion hj
  · refine ⟨Or.inl rfl, ?_, fun _ => rfl⟩
    rintro ⟨-, j, hj⟩
    exact OutBody.noConfusion hj

/-- Witness for C2: a claimed-JSON body that fails to parse is forwarded raw. -/
theorem proxy_v1_rewrite_body_exclusive_witness :
    (proxy_v1_rewrite "dft" (fun _ => none)
       ⟨fun _ => none,
        fun k => if k = "content-type" then some "application/json" else none,
        [1]⟩).body = .raw [1] :=
  (proxy_v1_rewrite_body_exclusive "dft" (fun _ => none)
      ⟨fun _ => none,
       fun k => if k = "content-type" then some "application/json" else none,
       [1]⟩).2.2 rfl

/-- C7: outbound headers are the inbound headers with exactly
`content-length`, `transfer-encoding` and `host` removed, and outbound query
parameters are the inbound ones with exactly `model` removed. -/
theorem proxy_v1_rewrite_headers_params (dm : String) (parseJson : List Nat → Option Json)
    (req : InboundRequest) (k : String) :
    ((proxy_v1_rewrite dm parseJson req).headers k =
       if k = "content-length" ∨ k = "transfer-encoding" ∨ k = "host" then none
       else req.headers k) ∧
    ((proxy_v1_rewrite dm parseJson req).params k =
       if k = "model" then none else req.query k) := by
  constructor
  · show dictPop (dictPop (dictPop req.headers "content-length") "transfer-encoding") "host" k = _
    unfold dictPop
    by_cases h1 : k = "content-length" <;> by_cases h2 : k = "transfer-encoding" <;>
      by_cases h3 : k = "host" <;> simp [h1, h2, h3]
  · rfl

/-- C3: with auto-pull disabled, `ensure` issues no backend request at all;
with auto-pull enabled and the model absent (the cache lookup answers
`false`), exactly one pull is issued and a successful pull resets the cache
timestamp to the sentinel `0`; with the model present, no pull is issued. -/
theorem ensure_model_spec (b : Backend) (st : CacheState) (model : String) (now ttl : Int) :
    ensure_model false b st model now ttl = ([], st, .ok ()) ∧
    ((has_model b st model now ttl).2.2 = .ok false →
       countPulls (ensure_model true b st model now ttl).1 = 1 ∧
       (b.pullRes model = .ok () →
          (ensure_model true b st model now ttl).2.1.models_cache_ts = 0)) ∧
    ((has_model b st model now ttl).2.2 = .ok true →
       countPulls (ensure_model true b st model now ttl).1 = 0) := by
  have hcp : countPulls (has_model b st model now ttl).1 = 0 :=
    countPulls_has_model b st model now ttl
  refine ⟨rfl, ?_, ?_⟩
  · intro hfalse
    rcases hh : has_model b st model now ttl with ⟨reqs1, st1, res⟩
    rw [hh] at hfalse hcp
    simp only at hfalse hcp
    subst hfalse
    rcases hp : pull_model b st1 model with ⟨reqs2, st2, res2⟩
    have hr2 : reqs2 = [.pull model] := by
      have := pull_model_fst b st1 model
      rw [hp] at this
      exact this
    constructor
    · unfold ensure_model
      rw [hh, if_pos rfl]
      simp only [hp]
      rw [countPulls_append, hcp, hr2]
      rfl
    · intro hok
      have hp' : pull_model b st1 model
          = ([.pull model], { st1 with models_cache_ts := 0 }, .ok ()) := by
        unfold pull_model
        rw [hok]
      unfold ensure_model
      rw [hh, if_pos rfl]
      simp only [hp']
  · intro htrue
    rcases hh : has_model b st model now ttl with ⟨reqs1, st1, res⟩
    rw [hh] at htrue hcp
    simp only at htrue hcp
    subst htrue
    unfold ensure_model
    rw [hh, if_pos rfl]
    exact hcp

/-- Witness for C3: an empty backend model list forces a pull for `"m"`,
which succeeds and resets the cache timestamp. -/
theorem ensure_model_spec_witness :
    countPulls (ensure_model true ⟨.ok (.obj [("models", .arr [])]), fun _ => .ok ()⟩
        ⟨[], 0⟩ "m" 100 10).1 = 1 ∧
    (ensure_model true ⟨.ok (.obj [("models", .arr [])]), fun _ => .ok ()⟩
        ⟨[], 0⟩ "m" 100 10).2.1.models_cache_ts = 0 ∧
    ensure_model false ⟨.ok (.obj [("models", .arr [])]), fun _ => .ok ()⟩
        ⟨[], 0⟩ "m" 100 10 = ([], ⟨[], 0⟩, .ok ()) := by
  have h := ensure_model_spec ⟨.ok (.obj [("models", .arr [])]), fun _ => .ok ()⟩
    ⟨[], 0⟩ "m" 100 10
  exact ⟨(h.2.1 rfl).1, (h.2.1 rfl).2 rfl, h.1⟩

/-- C4: a failing pull propagates its error and leaves the cache exactly as
it was before the pull was issued — both at the `pull_model` level and for
the whole `ensure` call (whose resulting state is the post-lookup,
pre-pull state). -/
theorem pull_error_spec (b : Backend) (st : CacheState) (model : String) (now ttl : Int)
    (e : Unit) (herr : b.pullRes model = .error e) :
    pull_model b st model = ([.pull model], st, .error e) ∧
    ((has_model b st model now ttl).2.2 = .ok false →
       ensure_model true b st model now ttl =
         ((has_model b st model now ttl).1 ++ [.pull model],
          (has_model b st model now ttl).2.1, .error e)) := by
  have hpm : pull_model b st model = ([.pull model], st, .error e) := by
    unfold pull_model
    rw [herr]
  refine ⟨hpm, ?_⟩
  intro hfalse
  rcases hh : has_model b st model now ttl with ⟨reqs1, st1, res⟩
  rw [hh] at hfalse
  simp only at hfalse
  subst hfalse
  have hpm1 : pull_model b st1 model = ([.pull model], st1, .error e) := by
    unfold pull_model
    rw [herr]
  unfold ensure_model
  rw [hh, if_pos rfl]
  simp only [hpm1]

/-- Witness for C4 at a concrete backend whose pull fails. -/
theorem pull_error_spec_witness :
    pull_model ⟨.ok (.obj [("models", .arr [])]), fun _ => .error ()⟩ ⟨["x"], 7⟩ "m"
      = ([.pull "m"], ⟨["x"], 7⟩, .error ()) ∧
    ensure_model true ⟨.ok (.obj [("models", .arr [])]), fun _ => .error ()⟩
        ⟨["x"], 0⟩ "m" 100 10
      = ([.fetchTags, .pull "m"], ⟨[], 100⟩, .error ()) := by
  refine ⟨(pull_error_spec ⟨.ok (.obj [("models", .arr [])]), fun _ => .error ()⟩
      ⟨["x"], 7⟩ "m" 100 10 () rfl).1, ?_⟩
  have h := (pull_error_spec ⟨.ok (.obj [("models", .arr [])]), fun _ => .error ()⟩
      ⟨["x"], 0⟩ "m" 100 10 () rfl).2 rfl
  exact h

/-- C5: when the TTL has expired and the backend listing fetch fails, the
error propagates, the stale cache contents and timestamp are untouched, and
(time not moving backwards) any later `contains` call attempts the refresh
again. -/
theorem has_model_fetch_error_spec (b : Backend) (st : CacheState) (model : String)
    (now ttl : Int) (e : Unit)
    (hexp : now - st.models_cache_ts > ttl)
    (herr : fetch_local_models b = .error e) :
    has_model b st model now ttl = ([.fetchTags], st, .error e) ∧
    (∀ now2, now ≤ now2 → (has_model b st model now2 ttl).1 = [.fetchTags]) := by
  constructor
  · unfold has_model
    rw [if_pos hexp, herr]
  · intro now2 h2
    have hexp2 : now2 - st.models_cache_ts > ttl := by omega
    unfold has_model
    rw [if_pos hexp2, herr]

/-- Witness for C5: expired cache, failing fetch. -/
theorem has_model_fetch_error_spec_witness :
    has_model ⟨.error (), fun _ => .ok ()⟩ ⟨["old"], 0⟩ "m" 100 10
      = ([.fetchTags], ⟨["old"], 0⟩, .error ()) ∧
    (has_model ⟨.error (), fun _ => .ok ()⟩ ⟨["old"], 0⟩ "m" 150 10).1 = [.fetchTags] := by
  have h := has_model_fetch_error_spec ⟨.error (), fun _ => .ok ()⟩ ⟨["old"], 0⟩ "m"
    100 10 () (by decide) rfl
  exact ⟨h.1, h.2 150 (by decide)⟩

/-- C6 counterexample: the invalidation sentinel is the timestamp `0`, and
the refresh condition is `now - ts > ttl`, so a TTL at least as large as the
current time defeats it.  A successful pull resets the timestamp to `0`, yet
the next `contains` at time `1700000000` with TTL `2000000000` issues no
backend fetch at all. -/
theorem invalidate_large_ttl_no_refresh :
    (pull_model ⟨.ok .null, fun _ => .ok ()⟩ ⟨["x"], 555⟩ "m").2.1.models_cache_ts = 0 ∧
    (has_model ⟨.ok .null, fun _ => .ok ()⟩ ⟨["x"], 0⟩ "m" 1700000000 2000000000).1 = [] := by
  exact ⟨rfl, by decide⟩

/-- C6 (amended): after invalidation sets the timestamp to the sentinel `0`,
the next `contains` call performs a backend refresh whenever the configured
TTL is smaller than the current time (`ttl < now`); in particular for every
non-negative TTL smaller than the clock value. -/
theorem invalidate_forces_refresh (b : Backend) (st : CacheState) (model : String)
    (now ttl : Int) (h : ttl < now) :
    (has_model b { st with models_cache_ts := 0 } model now ttl).1 = [.fetchTags] := by
  have hexp : now - ({ st with models_cache_ts := 0 } : CacheState).models_cache_ts > ttl := by
    simp only
    omega
  unfold has_model
  rw [if_pos hexp]
  cases fetch_local_models b <;> rfl

/-- Witness for the amended C6. -/
theorem invalidate_forces_refresh_witness :
    (has_model ⟨.ok (.obj []), fun _ => .ok ()⟩ ⟨["x"], 0⟩ "m" 100 10).1 = [.fetchTags] :=
  invalidate_forces_refresh ⟨.ok (.obj []), fun _ => .ok ()⟩ ⟨["x"], 99⟩ "m" 100 10 (by decide)

/-- C8: a non-200 backend `/v1/models` answer makes the handler return the
fallback single-entry list naming only the default model; a 200 answer is
relayed verbatim. -/
theorem models_handler_spec (dm : String) (status : Nat) (body : Json) :
    (status = 200 → models_handler dm status body = body) ∧
    (status ≠ 200 → models_handler dm status body =
       .obj [("object", .str "list"),
             ("data", .arr [.obj [("id", .str dm), ("object", .str "model"),
                                  ("owned_by", .str "ollama")]])]) := by
  constructor <;> intro h <;> simp [models_handler, h]

/-- Witness for C8: backend answers 500, and answers 200. -/
theorem models_handler_spec_witness :
    models_handler "dft" 500 Json.null =
      .obj [("object", .str "list"),
            ("data", .arr [.obj [("id", .str "dft"), ("object", .str "model"),
                                 ("owned_by", .str "ollama")]])] ∧
    models_handler "dft" 200 (Json.str "ok") = Json.str "ok" :=
  ⟨(models_handler_spec "dft" 500 Json.null).2 (by decide),
   (models_handler_spec "dft" 200 (Json.str "ok")).1 rfl⟩

end OllamaProxy
